import Mathlib

/-!
Verification development for the SEC EDGAR Fraud Analyzer web client
(`app.js`, version 2.2.0).

Modelling conventions:
* JavaScript strings are embedded as `List Char` (alias `JStr`); the helper
  `str` converts a Lean string literal to that representation.
* JavaScript numbers are embedded as `ℚ` (every numeric literal in the
  client is an exact decimal, so rationals represent them exactly).
* A JavaScript field that may be `undefined`/`null` is embedded as an
  `Option`; the JS falsy coalescing `x || d` is embedded by the explicit
  `jsNumOr…`/`jsStrOr…` helpers below, which also send the number `0` and
  the empty string to the default, exactly as `||` does.
* Each definition mirrors one function (or one inline classification
  expression) of `app.js`; the source location is given in its doc comment.
-/

namespace SecFraud

/-- JavaScript strings, embedded as lists of characters. -/
abbrev JStr := List Char

/-- Embed a Lean string literal as a `JStr`. -/
def str (s : String) : JStr := s.data

/-- Does the character sequence start with `needle`? (Helper for `includesSeq`.) -/
def leadsWith : JStr → JStr → Bool
  | _, [] => true
  | [], _ :: _ => false
  | a :: as, b :: bs => a == b && leadsWith as bs

/-- JS `hay.includes(needle)`: does `needle` occur contiguously inside `hay`? -/
def includesSeq : JStr → JStr → Bool
  | [], needle => needle.isEmpty
  | a :: t, needle => leadsWith (a :: t) needle || includesSeq t needle

/-- JS `s.toUpperCase()` (all identifiers used here are ASCII). -/
def toUpperSeq (s : JStr) : JStr := s.map Char.toUpper

/-- The Enron test of `generateDemoData` (app.js line 1414):
`identifier.toUpperCase().includes('ENRON') || identifier === '0001024401'`. -/
def isEnronId (identifier : JStr) : Bool :=
  includesSeq (toUpperSeq identifier) (str "ENRON") || identifier == str "0001024401"

/-- The `company` object of a demo report (app.js lines 1418-1423). -/
structure CompanyInfo where
  name : JStr
  ticker : JStr
  cik : JStr
  sic : JStr
deriving DecidableEq

/-- The `overall_risk` object (app.js lines 1425-1428). -/
structure OverallRisk where
  score : ℚ
  level : JStr
deriving DecidableEq

/-- The `models.beneish` object (app.js lines 1430-1436). -/
structure BeneishData where
  m_score : ℚ
  dsri : ℚ
  gmi : ℚ
  aqi : ℚ
  sgi : ℚ
deriving DecidableEq

/-- The `models.altman` object (app.js lines 1437-1440). -/
structure AltmanData where
  z_score : ℚ
  zone : JStr
deriving DecidableEq

/-- The `models.piotroski` object (app.js lines 1441-1443). -/
structure PiotroskiData where
  f_score : ℕ
deriving DecidableEq

/-- The `models.fraud_triangle` object (app.js lines 1444-1450). -/
structure FraudTriangleData where
  risk_score : ℚ
  risk_level : JStr
  pressure : ℚ
  opportunity : ℚ
  rationalization : ℚ
deriving DecidableEq

/-- The `models.benford` object (app.js lines 1451-1454). -/
structure BenfordData where
  deviation : ℚ
  suspicious : Bool
deriving DecidableEq

/-- The `models` object of a demo report (app.js lines 1429-1455). -/
structure Models where
  beneish : BeneishData
  altman : AltmanData
  piotroski : PiotroskiData
  fraud_triangle : FraudTriangleData
  benford : BenfordData
deriving DecidableEq

/-- One entry of the `filings` array (app.js lines 1456-1459). -/
structure Filing where
  accession : JStr
  filed_date : JStr
  form_type : JStr
  revenue : ℚ
  net_income : ℚ
  risk_level : JStr
deriving DecidableEq

/-- The `trends` object (app.js lines 1460-1465). -/
structure Trends where
  revenue_trend : JStr
  income_trend : JStr
  cash_flow_trend : JStr
  debt_trend : JStr
deriving DecidableEq

/-- One entry of the `red_flags` array (app.js lines 1466-1472):
a `{ type, title, description }` record. -/
structure RedFlag where
  «type» : JStr
  title : JStr
  description : JStr
deriving DecidableEq

/-- The full report object returned by `generateDemoData` (app.js lines 1416-1476). -/
structure DemoReport where
  ticker : JStr
  company : CompanyInfo
  filings_analyzed : ℕ
  overall_risk : OverallRisk
  models : Models
  filings : List Filing
  trends : Trends
  red_flags : List RedFlag
  recommendation : JStr
deriving DecidableEq

/-- `generateDemoData(identifier)` (app.js lines 1413-1477), field for field. -/
def generateDemoData (identifier : JStr) : DemoReport :=
  let isEnron := isEnronId identifier
  { ticker := identifier
    company :=
      { name := if isEnron then str "Enron Corporation" else identifier ++ str " Inc."
        ticker := if isEnron then str "ENE" else identifier
        cik := if isEnron then str "0001024401" else str "0000000000"
        sic := str "4911" }
    filings_analyzed := 8
    overall_risk :=
      { score := if isEnron then 0.85 else 0.25
        level := if isEnron then str "CRITICAL" else str "LOW" }
    models :=
      { beneish :=
          { m_score := if isEnron then -1.42 else -2.85
            dsri := if isEnron then 1.35 else 1.02
            gmi := if isEnron then 1.15 else 0.98
            aqi := if isEnron then 1.28 else 1.01
            sgi := if isEnron then 1.45 else 1.08 }
        altman :=
          { z_score := if isEnron then 1.25 else 3.45
            zone := if isEnron then str "Distress" else str "Safe" }
        piotroski := { f_score := if isEnron then 2 else 7 }
        fraud_triangle :=
          { risk_score := if isEnron then 0.78 else 0.22
            risk_level := if isEnron then str "HIGH" else str "LOW"
            pressure := if isEnron then 0.82 else 0.25
            opportunity := if isEnron then 0.75 else 0.20
            rationalization := if isEnron then 0.68 else 0.18 }
        benford :=
          { deviation := if isEnron then 8.5 else 2.1
            suspicious := isEnron } }
    filings :=
      [ { accession := str "0001024401-00-000123"
          filed_date := str "2000-03-15"
          form_type := str "10-K"
          revenue := if isEnron then 100789000000 else 50000000000
          net_income := if isEnron then 979000000 else 5000000000
          risk_level := if isEnron then str "HIGH" else str "LOW" },
        { accession := str "0001024401-99-000456"
          filed_date := str "1999-03-15"
          form_type := str "10-K"
          revenue := if isEnron then 40112000000 else 45000000000
          net_income := if isEnron then 893000000 else 4500000000
          risk_level := if isEnron then str "MODERATE" else str "LOW" } ]
    trends :=
      { revenue_trend := if isEnron then str "IMPROVING" else str "STABLE"
        income_trend := if isEnron then str "DECLINING" else str "IMPROVING"
        cash_flow_trend := if isEnron then str "DECLINING" else str "STABLE"
        debt_trend := if isEnron then str "DECLINING" else str "IMPROVING" }
    red_flags :=
      if isEnron then
        [ { «type» := str "EARNINGS_MANIPULATION"
            title := str "Beneish M-Score Above Threshold"
            description := str "M-Score of -1.42 exceeds the -2.22 threshold, indicating likely earnings manipulation." },
          { «type» := str "BANKRUPTCY_RISK"
            title := str "Altman Z-Score in Distress Zone"
            description := str "Z-Score of 1.25 indicates high probability of bankruptcy within 2 years." },
          { «type» := str "WEAK_FUNDAMENTALS"
            title := str "Low Piotroski F-Score"
            description := str "F-Score of 2 indicates weak financial fundamentals." },
          { «type» := str "FRAUD_TRIANGLE"
            title := str "High Fraud Triangle Risk"
            description := str "Multiple fraud risk factors detected: high pressure, opportunity, and rationalization scores." },
          { «type» := str "BENFORD_ANOMALY"
            title := str "Benford\x27s Law Deviation"
            description := str "Significant deviation (8.5%) from expected digit distribution in financial figures." } ]
      else []
    recommendation :=
      if isEnron then
        str "CRITICAL RISK: Multiple fraud indicators detected. This analysis reflects Enron\x27s actual financial condition prior to its 2001 collapse. The company filed for bankruptcy in December 2001."
      else
        str "LOW RISK: No significant fraud indicators detected. Financial statements appear consistent with expected patterns." }

/-! Display classification expressions.

`displayModels` (app.js lines 830-910) and `generateHTMLReport` (lines
1144-1146) classify each model score with inline conditional expressions.
Each expression is embedded as one definition below.  The CSS classes
`risk-low` / `risk-moderate` / `risk-high` are the LOW / MODERATE / HIGH
presentations of a result. -/

/-- displayModels, Beneish badge text (app.js line 844):
`b.m_score > -2.22 ? 'Likely Manipulator' : 'Unlikely Manipulator'`. -/
def beneishIndicator (m : ℚ) : JStr :=
  if m > -2.22 then str "Likely Manipulator" else str "Unlikely Manipulator"

/-- displayModels, Beneish score colour (app.js line 841):
`b.m_score > -2.22 ? 'risk-high' : 'risk-low'`. -/
def beneishRiskClass (m : ℚ) : JStr :=
  if m > -2.22 then str "risk-high" else str "risk-low"

/-- generateHTMLReport, Beneish interpretation cell (app.js line 1144):
`data.models.beneish.m_score > -2.22 ? 'Likely Manipulator' : 'Unlikely Manipulator'`. -/
def htmlBeneishInterp (m : ℚ) : JStr :=
  if m > -2.22 then str "Likely Manipulator" else str "Unlikely Manipulator"

/-- displayModels, Altman zone text (app.js line 854):
`a.z_score > 2.99 ? 'Safe' : (a.z_score < 1.81 ? 'Distress' : 'Gray')`. -/
def altmanZone (z : ℚ) : JStr :=
  if z > 2.99 then str "Safe" else if z < 1.81 then str "Distress" else str "Gray"

/-- displayModels, Altman score colour (app.js line 857):
`a.z_score < 1.81 ? 'risk-high' : (a.z_score > 2.99 ? 'risk-low' : 'risk-moderate')`. -/
def altmanRiskClass (z : ℚ) : JStr :=
  if z < 1.81 then str "risk-high"
  else if z > 2.99 then str "risk-low" else str "risk-moderate"

/-- generateHTMLReport, Altman interpretation cell (app.js line 1145). -/
def htmlAltmanInterp (z : ℚ) : JStr :=
  if z > 2.99 then str "Safe" else if z < 1.81 then str "Distress" else str "Gray"

/-- displayModels, Piotroski badge text (app.js line 872):
`p.f_score >= 7 ? 'Strong' : (p.f_score <= 3 ? 'Weak' : 'Moderate')`. -/
def piotroskiRating (f : ℕ) : JStr :=
  if f ≥ 7 then str "Strong" else if f ≤ 3 then str "Weak" else str "Moderate"

/-- displayModels, Piotroski score colour (app.js line 869):
`p.f_score >= 7 ? 'risk-low' : (p.f_score <= 3 ? 'risk-high' : 'risk-moderate')`. -/
def piotroskiRiskClass (f : ℕ) : JStr :=
  if f ≥ 7 then str "risk-low" else if f ≤ 3 then str "risk-high" else str "risk-moderate"

/-- generateHTMLReport, Piotroski interpretation cell (app.js line 1146). -/
def htmlPiotroskiRating (f : ℕ) : JStr :=
  if f ≥ 7 then str "Strong" else if f ≤ 3 then str "Weak" else str "Moderate"

/-- displayModels, Fraud Triangle score colour (app.js line 884):
`ft.risk_score > 0.6 ? 'risk-high' : (ft.risk_score > 0.3 ? 'risk-moderate' : 'risk-low')`. -/
def fraudTriangleRiskClass (s : ℚ) : JStr :=
  if s > 0.6 then str "risk-high" else if s > 0.3 then str "risk-moderate" else str "risk-low"

/-- displayModels, Fraud Triangle badge colour (app.js line 886):
`ft.risk_score > 0.6 ? 'bg-high' : (ft.risk_score > 0.3 ? 'bg-moderate' : 'bg-low')`. -/
def fraudTriangleBgClass (s : ℚ) : JStr :=
  if s > 0.6 then str "bg-high" else if s > 0.3 then str "bg-moderate" else str "bg-low"

/-- displayModels, Benford badge text (app.js line 901):
`bf.suspicious ? 'Anomaly Detected' : 'Normal'`. -/
def benfordIndicator (bf : BenfordData) : JStr :=
  if bf.suspicious then str "Anomaly Detected" else str "Normal"

/-- displayModels, Benford score colour (app.js line 898):
`bf.suspicious ? 'risk-high' : 'risk-low'`. -/
def benfordRiskClass (bf : BenfordData) : JStr :=
  if bf.suspicious then str "risk-high" else str "risk-low"

/-! URL normalization (`normalizeApiUrl`, app.js lines 189-214). -/

/-- The endpoint suffixes stripped by `normalizeApiUrl` (app.js lines 194-200),
in source order. -/
def suffixesToRemove : List JStr :=
  [str "/api/health", str "/api/analyze", str "/api/filings", str "/api/", str "/api"]

/-- The `for (const suffix of suffixesToRemove)` loop of `normalizeApiUrl`
(app.js lines 202-206): each suffix, in order, is removed from the end of the
URL if currently present (`url = url.slice(0, -suffix.length)`). -/
def stripSuffixes (u : JStr) : JStr :=
  suffixesToRemove.foldl
    (fun acc sfx => if sfx.isSuffixOf acc then acc.take (acc.length - sfx.length) else acc) u

/-- JS `url.trim()`: leading and trailing whitespace removed. -/
def jsTrim (u : JStr) : JStr :=
  ((u.dropWhile Char.isWhitespace).reverse.dropWhile Char.isWhitespace).reverse

/-- The `while (url.endsWith('/')) url = url.slice(0, -1)` loop of
`normalizeApiUrl` (app.js lines 209-211). -/
def dropTrailingSlashes (u : JStr) : JStr :=
  (u.reverse.dropWhile (fun c => c == '/')).reverse

/-- `normalizeApiUrl(url)` (app.js lines 189-214).  The argument is an
`Option` so that the JS `null`/`undefined` case (`if (!url) return ''`) is
represented; `some []` is the empty-string case of the same falsy test. -/
def normalizeApiUrl (url : Option JStr) : JStr :=
  match url with
  | none => []
  | some u =>
      if u.isEmpty then []
      else dropTrailingSlashes (stripSuffixes (jsTrim u))

/-! Analysis history (`addToHistory`, app.js lines 1179-1193). -/

/-- One entry of `analysisHistory` (app.js lines 1180-1185). -/
structure HistoryEntry where
  identifier : JStr
  company : JStr
  timestamp : JStr
  riskLevel : JStr
deriving DecidableEq

/-- `addToHistory` (app.js lines 1179-1193): the new entry is `unshift`ed to
the front and, when the list then exceeds 50 entries, the last (oldest) entry
is `pop`ped. -/
def addToHistory (entry : HistoryEntry) (analysisHistory : List HistoryEntry) :
    List HistoryEntry :=
  let h := entry :: analysisHistory
  if 50 < h.length then h.dropLast else h

/-! CSV export and overview rendering (`convertToCSV`, app.js lines
1092-1114, and `displayOverview`, lines 793-828).

These functions run on whatever object the server (or demo generator)
returned, so every field they access through `?.` or guard with `if` is
embedded as an `Option`.  A CSV cell holds either a string or a number until
the final `join` stringifies it. -/

/-- One cell of the CSV row matrix: JS pushes raw strings and numbers. -/
inductive CsvCell
  | s (v : JStr)
  | n (v : ℚ)
deriving DecidableEq

/-- The fields of `overall_risk` as read by the export/overview code. -/
structure CsvRisk where
  score : Option ℚ
  level : Option JStr
deriving DecidableEq

/-- The `models.beneish` object as read by `convertToCSV`. -/
structure CsvBeneish where
  m_score : Option ℚ
deriving DecidableEq

/-- The `models.altman` object as read by `convertToCSV`. -/
structure CsvAltman where
  z_score : Option ℚ
deriving DecidableEq

/-- The `models.piotroski` object as read by `convertToCSV`. -/
structure CsvPiotroski where
  f_score : Option ℚ
deriving DecidableEq

/-- The `models` object as read by `convertToCSV`. -/
structure CsvModels where
  beneish : Option CsvBeneish
  altman : Option CsvAltman
  piotroski : Option CsvPiotroski
deriving DecidableEq

/-- The `company` object as read by `convertToCSV`. -/
structure CsvCompany where
  name : Option JStr
deriving DecidableEq

/-- The analysis object as read by `convertToCSV` and `displayOverview`. -/
structure CsvData where
  ticker : Option JStr
  company : Option CsvCompany
  filings_analyzed : Option ℚ
  overall_risk : Option CsvRisk
  models : Option CsvModels
  red_flags : Option (List RedFlag)
deriving DecidableEq

/-- JS `x || ''` on a possibly-absent string: `undefined` and the empty
string are both falsy, so both give `''`. -/
def jsStrOrEmpty (v : Option JStr) : JStr :=
  match v with
  | some s => if s.isEmpty then [] else s
  | none => []

/-- JS `x || ''` on a possibly-absent number, as pushed into a CSV cell:
`undefined` and `0` are both falsy, so both give the empty string. -/
def jsNumOrEmpty (v : Option ℚ) : CsvCell :=
  match v with
  | some q => if q = 0 then CsvCell.s [] else CsvCell.n q
  | none => CsvCell.s []

/-- JS `x || d` on a possibly-absent number with a numeric default. -/
def jsNumOrNum (v : Option ℚ) (d : ℚ) : CsvCell :=
  match v with
  | some q => if q = 0 then CsvCell.n d else CsvCell.n q
  | none => CsvCell.n d

/-- JS `data.red_flags?.length || 0` (app.js line 1111). -/
def jsLenOrZero (v : Option (List RedFlag)) : ℚ :=
  match v with
  | some l => (l.length : ℚ)
  | none => 0

/-- `convertToCSV` (app.js lines 1092-1114): the row matrix before the final
`join` stringification.  Model rows are pushed only when the model object is
present; score values go through `|| ''`. -/
def convertToCSV (data : CsvData) : List (List CsvCell) :=
  [ [CsvCell.s (str "Metric"), CsvCell.s (str "Value")],
    [CsvCell.s (str "Ticker"), CsvCell.s (jsStrOrEmpty data.ticker)],
    [CsvCell.s (str "Company"),
      CsvCell.s (jsStrOrEmpty (data.company.bind (fun c => c.name)))],
    [CsvCell.s (str "Filings Analyzed"), jsNumOrNum data.filings_analyzed 0],
    [CsvCell.s (str "Overall Risk Score"),
      jsNumOrEmpty (data.overall_risk.bind (fun r => r.score))],
    [CsvCell.s (str "Risk Level"),
      CsvCell.s (jsStrOrEmpty (data.overall_risk.bind (fun r => r.level)))] ]
  ++ (match data.models.bind (fun m => m.beneish) with
      | some b => [[CsvCell.s (str "Beneish M-Score"), jsNumOrEmpty b.m_score]]
      | none => [])
  ++ (match data.models.bind (fun m => m.altman) with
      | some a => [[CsvCell.s (str "Altman Z-Score"), jsNumOrEmpty a.z_score]]
      | none => [])
  ++ (match data.models.bind (fun m => m.piotroski) with
      | some p => [[CsvCell.s (str "Piotroski F-Score"), jsNumOrEmpty p.f_score]]
      | none => [])
  ++ [ [CsvCell.s (str "Red Flags"), CsvCell.n (jsLenOrZero data.red_flags)] ]

/-- JS `x || 0` on a possibly-absent number. -/
def jsNumOrZero (v : Option ℚ) : ℚ :=
  match v with
  | some q => if q = 0 then 0 else q
  | none => 0

/-- The overall risk score shown by `displayOverview` (app.js lines 795-797):
`const risk = data.overall_risk || data.composite_risk || {};`
`const riskScore = risk.score || 0;`. -/
def displayOverviewRiskScore (overall_risk composite_risk : Option CsvRisk) : ℚ :=
  jsNumOrZero ((overall_risk.orElse (fun _ => composite_risk)).bind (fun r => r.score))

/-! Helper lemmas. -/

/-- If `dropWhile p` leaves a list whose head is `c`, then `p c` is false. -/
theorem head?_dropWhile_eq_false (p : Char → Bool) :
    ∀ (l : JStr) (c : Char), (l.dropWhile p).head? = some c → p c = false := by
  intro l
  induction l with
  | nil => intro c h; simp at h
  | cons a t ih =>
      intro c h
      rw [List.dropWhile_cons] at h
      by_cases hp : p a = true
      · rw [if_pos hp] at h
        exact ih c h
      · rw [if_neg hp] at h
        obtain rfl : a = c := by simpa using h
        simpa using hp

/-! Claim theorems. -/

/-- C1: for every identifier recognized as Enron (containing `enron`
case-insensitively, or equal to the CIK `0001024401`), the demo report has
Beneish M-Score −1.42 classified as likely manipulator (HIGH), Altman
Z-Score 1.25 displayed in the Distress band, composite risk level CRITICAL,
and at least 3 red flags. -/
theorem enron_report_spec :
    ∀ identifier : JStr, isEnronId identifier = true →
      (generateDemoData identifier).models.beneish.m_score = -1.42 ∧
      beneishIndicator (generateDemoData identifier).models.beneish.m_score
        = str "Likely Manipulator" ∧
      beneishRiskClass (generateDemoData identifier).models.beneish.m_score
        = str "risk-high" ∧
      (generateDemoData identifier).models.altman.z_score = 1.25 ∧
      altmanZone (generateDemoData identifier).models.altman.z_score = str "Distress" ∧
      (generateDemoData identifier).models.altman.zone = str "Distress" ∧
      (generateDemoData identifier).overall_risk.level = str "CRITICAL" ∧
      3 ≤ (generateDemoData identifier).red_flags.length := by
  intro identifier h
  refine ⟨?_, ?_, ?_, ?_, ?_, ?_, ?_, ?_⟩ <;>
    simp [generateDemoData, h, beneishIndicator, beneishRiskClass, altmanZone] <;>
    norm_num

/-- Witness for C1 at the concrete identifier `"enron"`. -/
theorem enron_report_spec_witness :
    (generateDemoData (str "enron")).overall_risk.level = str "CRITICAL" ∧
    3 ≤ (generateDemoData (str "enron")).red_flags.length :=
  ⟨(enron_report_spec (str "enron") (by decide)).2.2.2.2.2.2.1,
   (enron_report_spec (str "enron") (by decide)).2.2.2.2.2.2.2⟩

/-- C2 counterexample: the M-Score −2.0 lies inside the claimed grey zone
(−2.22 ≤ −2.0 ≤ −1.78), yet both display sites label it `Likely Manipulator`
with the HIGH colour class — the same output as for the clearly-HIGH score
−1.0 — and no MODERATE/grey-zone label exists in the display code. -/
theorem beneish_grey_zone_cex :
    ((-2.22 : ℚ) ≤ -2 ∧ (-2 : ℚ) ≤ -1.78) ∧
    beneishIndicator (-2) = str "Likely Manipulator" ∧
    beneishRiskClass (-2) = str "risk-high" ∧
    htmlBeneishInterp (-2) = str "Likely Manipulator" ∧
    beneishIndicator (-2) = beneishIndicator (-1) := by
  refine ⟨⟨by norm_num, by norm_num⟩, ?_, ?_, ?_, ?_⟩ <;>
    norm_num [beneishIndicator, beneishRiskClass, htmlBeneishInterp]

/-- C2 amended: the displayed Beneish classification is two-banded on the
single threshold −2.22 (M > −2.22 → Likely Manipulator / HIGH colour,
M ≤ −2.22 → Unlikely Manipulator / LOW colour), in both `displayModels` and
`generateHTMLReport`; there is no −1.78 grey-zone band. -/
theorem beneish_single_threshold :
    ∀ m : ℚ,
      (-2.22 < m →
        beneishIndicator m = str "Likely Manipulator" ∧
        htmlBeneishInterp m = str "Likely Manipulator" ∧
        beneishRiskClass m = str "risk-high") ∧
      (m ≤ -2.22 →
        beneishIndicator m = str "Unlikely Manipulator" ∧
        htmlBeneishInterp m = str "Unlikely Manipulator" ∧
        beneishRiskClass m = str "risk-low") := by
  intro m
  refine ⟨fun h => ?_, fun h => ?_⟩
  · simp [beneishIndicator, htmlBeneishInterp, beneishRiskClass, h]
  · have h2 : ¬ -2.22 < m := not_lt.mpr h
    simp [beneishIndicator, htmlBeneishInterp, beneishRiskClass, h2]

/-- Witness for the amended C2 at the concrete score −2.0. -/
theorem beneish_single_threshold_witness :
    beneishIndicator (-2) = str "Likely Manipulator" :=
  ((beneish_single_threshold (-2)).1 (by norm_num)).1

/-- C3: the displayed Altman classification sends Z > 2.99 to Safe/LOW and
Z < 1.81 to Distress/HIGH, and the band boundaries are inclusive to the grey
zone: 1.81 ≤ Z ≤ 2.99 — in particular Z = 1.81 and Z = 2.99 — is Gray with
the MODERATE colour class, in both `displayModels` and `generateHTMLReport`. -/
theorem altman_banding :
    ∀ z : ℚ,
      (2.99 < z →
        altmanZone z = str "Safe" ∧ htmlAltmanInterp z = str "Safe" ∧
        altmanRiskClass z = str "risk-low") ∧
      (z < 1.81 →
        altmanZone z = str "Distress" ∧ htmlAltmanInterp z = str "Distress" ∧
        altmanRiskClass z = str "risk-high") ∧
      (1.81 ≤ z → z ≤ 2.99 →
        altmanZone z = str "Gray" ∧ htmlAltmanInterp z = str "Gray" ∧
        altmanRiskClass z = str "risk-moderate") := by
  intro z
  refine ⟨fun h => ?_, fun h => ?_, fun h1 h2 => ?_⟩
  · have hd : ¬ z < 1.81 := by linarith
    simp [altmanZone, htmlAltmanInterp, altmanRiskClass, h, hd]
  · have hs : ¬ 2.99 < z := by linarith
    simp [altmanZone, htmlAltmanInterp, altmanRiskClass, h, hs]
  · have hs : ¬ 2.99 < z := not_lt.mpr h2
    have hd : ¬ z < 1.81 := not_lt.mpr h1
    simp [altmanZone, htmlAltmanInterp, altmanRiskClass, hs, hd]

/-- Witness for C3 at the boundary scores 1.81 and 2.99. -/
theorem altman_banding_witness :
    altmanZone (1.81 : ℚ) = str "Gray" ∧ altmanZone (2.99 : ℚ) = str "Gray" :=
  ⟨((altman_banding 1.81).2.2 (le_refl _) (by norm_num)).1,
   ((altman_banding 2.99).2.2 (by norm_num) (le_refl _)).1⟩

/-- C4 counterexample: the displayed Benford classification ignores the
deviation value and consumes the `suspicious` input flag as-is — a deviation
of 8.5 with `suspicious: false` displays Normal/LOW, a deviation of 2.1 with
`suspicious: true` displays Anomaly/HIGH, and two results with the same
deviation but different flags display differently; no MODERATE band exists. -/
theorem benford_display_cex :
    benfordIndicator ⟨8.5, false⟩ = str "Normal" ∧
    benfordRiskClass ⟨8.5, false⟩ = str "risk-low" ∧
    benfordIndicator ⟨2.1, true⟩ = str "Anomaly Detected" ∧
    benfordRiskClass ⟨2.1, true⟩ = str "risk-high" ∧
    benfordIndicator ⟨8.5, false⟩ ≠ benfordIndicator ⟨8.5, true⟩ := by
  refine ⟨rfl, rfl, rfl, rfl, ?_⟩
  decide

/-- C4 amended: the displayed Benford classification is two-banded on the
`suspicious` boolean alone (it is constant in the deviation), and in the demo
generator `suspicious` is set from the Enron identifier check, not derived
from the deviation by thresholding. -/
theorem benford_display_suspicious_only :
    (∀ d₁ d₂ : BenfordData, d₁.suspicious = d₂.suspicious →
        benfordIndicator d₁ = benfordIndicator d₂ ∧
        benfordRiskClass d₁ = benfordRiskClass d₂) ∧
    (∀ identifier : JStr,
        (generateDemoData identifier).models.benford.suspicious = isEnronId identifier) := by
  constructor
  · intro d₁ d₂ h
    constructor <;> simp [benfordIndicator, benfordRiskClass, h]
  · intro identifier
    rfl

/-- Witness for the amended C4: equal flags with different deviations give
identical display output. -/
theorem benford_display_suspicious_only_witness :
    benfordIndicator ⟨8.5, false⟩ = benfordIndicator ⟨2.1, false⟩ ∧
    benfordRiskClass ⟨8.5, false⟩ = benfordRiskClass ⟨2.1, false⟩ :=
  benford_display_suspicious_only.1 ⟨8.5, false⟩ ⟨2.1, false⟩ rfl

/-- C5 counterexample: a report whose overall risk score and Piotroski
F-Score are both the number 0 exports to exactly the same CSV as a report in
which both scores are absent, and `displayOverview` renders the two alike —
zero and absent are not distinguished. -/
theorem csv_zero_vs_absent_cex :
    convertToCSV ⟨none, none, none, some ⟨some 0, none⟩, some ⟨none, none, some ⟨some 0⟩⟩, none⟩ =
      convertToCSV ⟨none, none, none, some ⟨none, none⟩, some ⟨none, none, some ⟨none⟩⟩, none⟩ ∧
    displayOverviewRiskScore (some ⟨some 0, none⟩) none = displayOverviewRiskScore none none := by
  constructor
  · norm_num [convertToCSV, jsNumOrEmpty, Option.bind]
  · norm_num [displayOverviewRiskScore, jsNumOrZero, Option.orElse, Option.bind]

/-- C5 amended: the export and overview code coerce through JS falsy
coalescing — a present Piotroski F-Score of 0 is exported as the empty CSV
cell, `score || ''` maps both `0` and absent to the empty cell, and
`displayOverview` renders an absent overall score exactly like a zero score. -/
theorem csv_zero_coerced_to_empty :
    (∀ (d : CsvData) (ms : CsvModels), d.models = some ms →
        ms.piotroski = some ⟨some 0⟩ →
        [CsvCell.s (str "Piotroski F-Score"), CsvCell.s []] ∈ convertToCSV d) ∧
    (∀ r : Option ℚ, (r = some 0 ∨ r = none) → jsNumOrEmpty r = CsvCell.s []) ∧
    displayOverviewRiskScore none none = 0 ∧
    displayOverviewRiskScore (some ⟨some 0, none⟩) none = 0 := by
  refine ⟨?_, ?_, ?_, ?_⟩
  · intro d ms h1 h2
    simp [convertToCSV, h1, h2, jsNumOrEmpty, List.mem_append]
  · intro r hr
    rcases hr with rfl | rfl <;> simp [jsNumOrEmpty]
  · norm_num [displayOverviewRiskScore, jsNumOrZero, Option.orElse, Option.bind]
  · norm_num [displayOverviewRiskScore, jsNumOrZero, Option.orElse, Option.bind]

/-- Witness for the amended C5 at a concrete report object. -/
theorem csv_zero_coerced_to_empty_witness :
    [CsvCell.s (str "Piotroski F-Score"), CsvCell.s []] ∈
      convertToCSV ⟨none, none, none, none, some ⟨none, none, some ⟨some 0⟩⟩, none⟩ :=
  csv_zero_coerced_to_empty.1 _ _ rfl rfl

/-- C6: the displayed Piotroski classification sends F ≤ 3 to Weak/HIGH,
4 ≤ F ≤ 6 to Moderate, and F ≥ 7 to Strong/LOW, in both `displayModels` and
`generateHTMLReport`; in particular F = 0 is Weak/HIGH and F = 9 is
Strong/LOW. -/
theorem piotroski_banding :
    ∀ f : ℕ,
      (f ≤ 3 →
        piotroskiRating f = str "Weak" ∧ htmlPiotroskiRating f = str "Weak" ∧
        piotroskiRiskClass f = str "risk-high") ∧
      (4 ≤ f → f ≤ 6 →
        piotroskiRating f = str "Moderate" ∧ htmlPiotroskiRating f = str "Moderate" ∧
        piotroskiRiskClass f = str "risk-moderate") ∧
      (7 ≤ f →
        piotroskiRating f = str "Strong" ∧ htmlPiotroskiRating f = str "Strong" ∧
        piotroskiRiskClass f = str "risk-low") := by
  intro f
  refine ⟨fun h => ?_, fun h1 h2 => ?_, fun h => ?_⟩
  · have h7 : ¬ 7 ≤ f := by omega
    simp [piotroskiRating, htmlPiotroskiRating, piotroskiRiskClass, h, h7]
  · have h7 : ¬ 7 ≤ f := by omega
    have h3 : ¬ f ≤ 3 := by omega
    simp [piotroskiRating, htmlPiotroskiRating, piotroskiRiskClass, h7, h3]
  · simp [piotroskiRating, htmlPiotroskiRating, piotroskiRiskClass, h]

/-- Witness for C6 at the extreme scores F = 0 and F = 9. -/
theorem piotroski_banding_witness :
    (piotroskiRating 0 = str "Weak" ∧ piotroskiRiskClass 0 = str "risk-high") ∧
    (piotroskiRating 9 = str "Strong" ∧ piotroskiRiskClass 9 = str "risk-low") :=
  ⟨⟨((piotroski_banding 0).1 (by decide)).1, ((piotroski_banding 0).1 (by decide)).2.2⟩,
   ⟨((piotroski_banding 9).2.2 (by decide)).1, ((piotroski_banding 9).2.2 (by decide)).2.2⟩⟩

/-- C7: for a Fraud Triangle risk score in [0,1], the displayed colour
classification is LOW for scores at most 0.3, MODERATE for scores in
(0.3, 0.6], and HIGH for scores above 0.6, for both the score colour and the
badge background of `displayModels`. -/
theorem fraud_triangle_banding :
    ∀ s : ℚ, 0 ≤ s → s ≤ 1 →
      (s ≤ 0.3 →
        fraudTriangleRiskClass s = str "risk-low" ∧
        fraudTriangleBgClass s = str "bg-low") ∧
      (0.3 < s → s ≤ 0.6 →
        fraudTriangleRiskClass s = str "risk-moderate" ∧
        fraudTriangleBgClass s = str "bg-moderate") ∧
      (0.6 < s →
        fraudTriangleRiskClass s = str "risk-high" ∧
        fraudTriangleBgClass s = str "bg-high") := by
  intro s _ _
  refine ⟨fun h => ?_, fun h1 h2 => ?_, fun h => ?_⟩
  · have h6 : ¬ 0.6 < s := by linarith
    have h3 : ¬ 0.3 < s := by linarith
    simp [fraudTriangleRiskClass, fraudTriangleBgClass, h6, h3]
  · have h6 : ¬ 0.6 < s := by linarith
    simp [fraudTriangleRiskClass, fraudTriangleBgClass, h6, h1]
  · simp [fraudTriangleRiskClass, fraudTriangleBgClass, h]

/-- Witness for C7 at the concrete score 0.5. -/
theorem fraud_triangle_banding_witness :
    fraudTriangleRiskClass (0.5 : ℚ) = str "risk-moderate" :=
  ((fraud_triangle_banding 0.5 (by norm_num) (by norm_num)).2.1
    (by norm_num) (by norm_num)).1

/-- C8: the demo report generator is a pure function of its identifier — in
the embedding two invocations on the same identifier are the same
application, and, stronger, the composite risk, all five model results and
the red flag list depend only on the identifier's Enron classification, so
no hidden state can influence them. -/
theorem generateDemoData_deterministic :
    ∀ id₁ id₂ : JStr, isEnronId id₁ = isEnronId id₂ →
      (generateDemoData id₁).overall_risk = (generateDemoData id₂).overall_risk ∧
      (generateDemoData id₁).models = (generateDemoData id₂).models ∧
      (generateDemoData id₁).red_flags = (generateDemoData id₂).red_flags := by
  intro id₁ id₂ h
  refine ⟨?_, ?_, ?_⟩ <;> simp [generateDemoData, h]

/-- Witness for C8: two distinct non-Enron identifiers yield the same
composite risk. -/
theorem generateDemoData_deterministic_witness :
    (generateDemoData (str "AAPL")).overall_risk =
      (generateDemoData (str "MSFT")).overall_risk :=
  (generateDemoData_deterministic (str "AAPL") (str "MSFT") (by decide)).1

/-- C9: `addToHistory` preserves the history invariant — starting from a
history of at most 50 entries, the result has at most 50 entries, the new
entry is first, and when the cap is exceeded the result is exactly the new
list with its last (oldest) entry discarded. -/
theorem addToHistory_spec :
    ∀ (e : HistoryEntry) (hist : List HistoryEntry), hist.length ≤ 50 →
      (addToHistory e hist).length ≤ 50 ∧
      (addToHistory e hist).head? = some e ∧
      (50 < hist.length + 1 → addToHistory e hist = (e :: hist).dropLast) := by
  intro e hist hle
  simp only [addToHistory]
  by_cases hc : 50 < (e :: hist).length
  · rw [if_pos hc]
    obtain ⟨x, xs, rfl⟩ : ∃ x xs, hist = x :: xs := by
      cases hist with
      | nil => simp at hc
      | cons x xs => exact ⟨x, xs, rfl⟩
    refine ⟨?_, ?_, fun _ => rfl⟩
    · rw [List.length_dropLast]
      simp only [List.length_cons]
      simp only [List.length_cons] at hle
      omega
    · simp [List.dropLast_cons₂]
  · rw [if_neg hc]
    simp only [List.length_cons] at hc
    refine ⟨?_, rfl, fun hcontra => ?_⟩
    · simp only [List.length_cons]
      omega
    · omega

/-- Witness for C9 on the empty history. -/
theorem addToHistory_spec_witness :
    (addToHistory ⟨[], [], [], []⟩ []).length ≤ 50 ∧
    (addToHistory ⟨[], [], [], []⟩ []).head? = some ⟨[], [], [], []⟩ :=
  ⟨(addToHistory_spec ⟨[], [], [], []⟩ [] (by decide)).1,
   (addToHistory_spec ⟨[], [], [], []⟩ [] (by decide)).2.1⟩

/-- C10: `normalizeApiUrl` never returns a string ending in `'/'`, and it
returns the empty string for `null`/`undefined` input and for the empty
string. -/
theorem normalizeApiUrl_spec :
    (∀ (url : Option JStr) (c : Char),
        (normalizeApiUrl url).getLast? = some c → c ≠ '/') ∧
    normalizeApiUrl none = [] ∧ normalizeApiUrl (some []) = [] := by
  refine ⟨?_, rfl, rfl⟩
  intro url c h
  cases url with
  | none => simp [normalizeApiUrl] at h
  | some u =>
      rw [normalizeApiUrl] at h
      by_cases hu : u.isEmpty
      · rw [if_pos hu] at h
        simp at h
      · rw [if_neg hu] at h
        rw [dropTrailingSlashes, List.getLast?_reverse] at h
        have hc := head?_dropWhile_eq_false (fun c => c == '/') _ c h
        simpa using hc

/-- Witness for C10 on a concrete URL with a trailing slash. -/
theorem normalizeApiUrl_spec_witness : ('x' : Char) ≠ '/' :=
  normalizeApiUrl_spec.1 (some (str "http://x/")) 'x' (by decide)

end SecFraud
